import Mathlib

/-!
Verification of `generate_discussion_urls.py` (Steam-Data-Collection).

The Python source is shallowly embedded: parsed HTML pages (BeautifulSoup
objects) become a `Node` tree, the regular expressions of the script become
explicit character-list scanners, and the generator `generate_urls` becomes a
function producing the full finite trace of emitted rows and sleep
suspensions.  Text is modelled over ASCII: Python's `str.strip`, `\s` and
`str.isdigit` are rendered with the corresponding ASCII character classes.
`float` delays are modelled as rationals; the script only branches on
truthiness (`if delay:`), i.e. on being nonzero.
-/

namespace SteamUrls

mutual
/-- A parsed HTML node: either a text node or an element with a tag name,
a class list, an attribute list and children.  `BeautifulSoup` documents are
represented as an element node whose descendants are the page content.
The children are a `NodeForest` (an isomorphic copy of `List Node`) so that
traversals are structurally recursive and kernel-reducible. -/
inductive Node where
  | text (s : String)
  | elem (tag : String) (classes : List String) (attrs : List (String × String))
      (children : NodeForest)
/-- A list of sibling nodes. -/
inductive NodeForest where
  | nil
  | cons (n : Node) (f : NodeForest)
end

deriving instance DecidableEq for Node

/-- Build a forest from a list of nodes. -/
def NodeForest.ofList : List Node → NodeForest
  | [] => NodeForest.nil
  | n :: ns => NodeForest.cons n (NodeForest.ofList ns)

/-- Element constructor taking a plain list of children. -/
def Node.el (tag : String) (classes : List String) (attrs : List (String × String))
    (children : List Node) : Node :=
  Node.elem tag classes attrs (NodeForest.ofList children)

/-- Characters treated as whitespace by `str.strip` and by `\s` in the
script's regular expressions (ASCII model). -/
def isSpaceCh (c : Char) : Bool :=
  c = ' ' || c = '\t' || c = '\n' || c = '\r' || c = '\x0c' || c = '\x0b'

/-- `str.strip()` on a character list: drop whitespace from both ends. -/
def stripCh (cs : List Char) : List Char :=
  ((cs.dropWhile isSpaceCh).reverse.dropWhile isSpaceCh).reverse

/-- `str.splitlines()`: split on line terminators, treating `\r\n`, `\n` and
`\r` as terminators; a trailing terminator does not produce a final empty
line, and the empty string yields no lines. -/
def splitlines : List Char → List Char → List (List Char)
  | [], acc => if acc.isEmpty then [] else [acc.reverse]
  | '\r' :: '\n' :: rest, acc => acc.reverse :: splitlines rest []
  | '\n' :: rest, acc => acc.reverse :: splitlines rest []
  | '\r' :: rest, acc => acc.reverse :: splitlines rest []
  | c :: rest, acc => splitlines rest (c :: acc)

/-- `str.isdigit()` (ASCII model): nonempty and every character a decimal
digit. -/
def pyIsdigit (cs : List Char) : Bool :=
  !cs.isEmpty && cs.all Char.isDigit

/-- `int(s)` on a string of decimal digits. -/
def digitsToNat (cs : List Char) : Nat :=
  cs.foldl (fun n c => n * 10 + (c.toNat - '0'.toNat)) 0

/-- `read_app_ids`: per line, strip whitespace; skip empty lines and lines
starting with `#`; skip lines that are not entirely decimal digits; keep the
rest in input order, duplicates included. -/
def read_app_ids (text : String) : List String :=
  (splitlines text.toList []).filterMap (fun raw_line =>
    let app_id := stripCh raw_line
    if app_id.isEmpty then none
    else if app_id.head? = some '#' then none
    else if !pyIsdigit app_id then none
    else some (String.mk app_id))

/-- `BASE_URL_TEMPLATE` instantiated by `build_base_url`. -/
def build_base_url (app_id : String) : String :=
  "https://steamcommunity.com/app/" ++ app_id ++
    "/discussions/search/?gidforum=1638661595058265180&include_deleted=1&q=+"

/-- `build_page_url`: the base URL followed by `PAGE_QUERY_TEMPLATE`,
i.e. `&p=<page>`. -/
def build_page_url (app_id : String) (page : Nat) : String :=
  build_base_url app_id ++ ("&p=" ++ toString page)

mutual
/-- All element nodes of a subtree in document (pre)order, the root element
included. -/
def elemsOf : Node → List Node
  | Node.text _ => []
  | Node.elem t c a ch => Node.elem t c a ch :: elemsUnder ch
/-- All element nodes of a forest in document (pre)order. -/
def elemsUnder : NodeForest → List Node
  | NodeForest.nil => []
  | NodeForest.cons n f => elemsOf n ++ elemsUnder f
end

/-- CSS selection scope of a tag: its strict descendants, in document
order (BeautifulSoup's `select` never returns the tag itself). -/
def descendantsOf : Node → List Node
  | Node.text _ => []
  | Node.elem _ _ _ ch => elemsUnder ch

/-- `tag.select(...)` restricted to a decidable element predicate. -/
def selectWhere (n : Node) (p : Node → Bool) : List Node :=
  (descendantsOf n).filter p

/-- Attribute lookup, `element.get(key)`. -/
def attrGet (n : Node) (key : String) : Option String :=
  match n with
  | Node.text _ => none
  | Node.elem _ _ attrs _ => (attrs.find? (fun kv => kv.1 = key)).map (fun kv => kv.2)

mutual
/-- Text-node strings of a subtree in document order. -/
def textsOf : Node → List String
  | Node.text s => [s]
  | Node.elem _ _ _ ch => textsUnder ch
/-- Text-node strings of a forest in document order. -/
def textsUnder : NodeForest → List String
  | NodeForest.nil => []
  | NodeForest.cons n f => textsOf n ++ textsUnder f
end

/-- Join character-list fragments with a single space. -/
def joinSpace : List (List Char) → List Char
  | [] => []
  | [x] => x
  | x :: xs => x ++ ' ' :: joinSpace xs

/-- `container.get_text(" ", strip=True)`: each string stripped, empty
fragments dropped, the rest joined with a single space. -/
def get_text (n : Node) : List Char :=
  joinSpace (((textsOf n).map (fun s => stripCh s.toList)).filter (fun cs => !cs.isEmpty))

/-- One attempted match of `[?&]p=(\d+)` anchored at the head of the list:
a `?` or `&`, then `p=`, then at least one digit; the capture is the maximal
digit run. -/
def pMatchAt : List Char → Option Nat
  | c :: 'p' :: '=' :: rest =>
      if c = '?' || c = '&' then
        let ds := rest.takeWhile Char.isDigit
        if ds.isEmpty then none else some (digitsToNat ds)
      else none
  | _ => none

/-- `re.search(r"[?&]p=(\d+)", s)`: the leftmost match wins. -/
def searchP : List Char → Option Nat
  | [] => none
  | c :: rest =>
      match pMatchAt (c :: rest) with
      | some n => some n
      | none => searchP rest

/-- One attempted match of `Page\s+\d+\s+of\s+(\d+)` (case-insensitive)
anchored at the head of the list.  The character classes `\s` and `\d` are
disjoint from each other and from the literals, so greedy maximal-munch with
no backtracking is the exact regex semantics. -/
def pageMatchAt : List Char → Option Nat
  | c1 :: c2 :: c3 :: c4 :: rest =>
      if c1.toLower = 'p' && c2.toLower = 'a' && c3.toLower = 'g' && c4.toLower = 'e' then
        let s1 := rest.takeWhile isSpaceCh
        let r1 := rest.dropWhile isSpaceCh
        if s1.isEmpty then none else
        let d1 := r1.takeWhile Char.isDigit
        let r2 := r1.dropWhile Char.isDigit
        if d1.isEmpty then none else
        let s2 := r2.takeWhile isSpaceCh
        let r3 := r2.dropWhile isSpaceCh
        if s2.isEmpty then none else
        match r3 with
        | o :: f :: r4 =>
            if o.toLower = 'o' && f.toLower = 'f' then
              let s3 := r4.takeWhile isSpaceCh
              let r5 := r4.dropWhile isSpaceCh
              if s3.isEmpty then none else
              let d2 := r5.takeWhile Char.isDigit
              if d2.isEmpty then none else some (digitsToNat d2)
            else none
        | _ => none
      else none
  | _ => none

/-- `re.search(r"Page\s+\d+\s+of\s+(\d+)", s, re.IGNORECASE)`: the leftmost
match wins; the value is the second captured integer. -/
def searchPage : List Char → Option Nat
  | [] => none
  | c :: rest =>
      match pageMatchAt (c :: rest) with
      | some n => some n
      | none => searchPage rest

/-- The four pagination-container class markers of
`soup.select(".forum_pagination, .search_pagination, .forum_paging, .searchPaging")`. -/
def PAGINATION_CLASSES : List String :=
  ["forum_pagination", "search_pagination", "forum_paging", "searchPaging"]

/-- Whether an element carries one of the pagination-container classes. -/
def hasPaginationClass (n : Node) : Bool :=
  match n with
  | Node.text _ => false
  | Node.elem _ classes _ _ => classes.any (fun c => PAGINATION_CLASSES.contains c)

/-- The `[data-page]` selector: the attribute is present. -/
def hasDataPage (n : Node) : Bool :=
  (attrGet n "data-page").isSome

/-- Substring containment test on character lists (`*=` in CSS). -/
def containsSeq (pat : List Char) : List Char → Bool
  | [] => pat.isEmpty
  | c :: rest => pat.isPrefixOf (c :: rest) || containsSeq pat rest

/-- The `a[href*="&p="]` selector: an anchor whose `href` attribute contains
the literal substring `&p=`. -/
def isAnchorWithP (n : Node) : Bool :=
  match n with
  | Node.text _ => false
  | Node.elem tag _ _ _ =>
      tag = "a" &&
        (match attrGet n "href" with
         | some h => containsSeq ['&', 'p', '='] h.toList
         | none => false)

/-- `extract_max_page`: maximum pagination number seen on a parsed page,
never below 1.  Scans pagination containers when present, otherwise the
whole page, for `data-page` attributes, `&p=` links and `Page X of Y`
text. -/
def extract_max_page (soup : Node) : Nat :=
  let pagination_containers := selectWhere soup hasPaginationClass
  let containers := if pagination_containers.isEmpty then [soup] else pagination_containers
  containers.foldl
    (fun max_page container =>
      let m1 := (selectWhere container hasDataPage).foldl
        (fun m element =>
          match attrGet element "data-page" with
          | some page_value =>
              if !page_value.toList.isEmpty && pyIsdigit page_value.toList then
                max m (digitsToNat page_value.toList)
              else m
          | none => m)
        max_page
      let m2 := (selectWhere container isAnchorWithP).foldl
        (fun m link =>
          match searchP ((attrGet link "href").getD "").toList with
          | some k => max m k
          | none => m)
        m1
      match searchPage (get_text container) with
      | some k => max m2 k
      | none => m2)
    1

/-- `fetch_max_page`: the fetch capability is a function from `app_id` to
either a transport/HTTP error message (the `requests.RequestException`
re-raised as `UrlGenerationError`) or the parsed page; on success the result
is `max(extract_max_page(soup), 1)`. -/
def fetch_max_page (fetch : String → Except String Node) (app_id : String) :
    Except String Nat :=
  match fetch app_id with
  | Except.error e => Except.error e
  | Except.ok soup => Except.ok (max (extract_max_page soup) 1)

/-- One step of the `generate_urls` trace: an emitted `(app_id, url)` row or
a `time.sleep(delay)` suspension. -/
inductive Event where
  | emit (app_id : String) (url : String)
  | sleep

/-- `generate_urls`, as the complete finite trace of the generator when run
to exhaustion: per identifier, a caught fetch failure defaults `max_page` to
1; the base URL is emitted, then `build_page_url` for pages
`range(2, max_page + 1)`; finally `if delay:` sleeps. -/
def generate_urls (fetch : String → Except String Node) (app_ids : List String)
    (delay : ℚ) : List Event :=
  app_ids.flatMap (fun app_id =>
    let max_page :=
      match fetch_max_page fetch app_id with
      | Except.error _ => 1
      | Except.ok n => n
    Event.emit app_id (build_base_url app_id) ::
      ((List.range' 2 (max_page - 1)).map
          (fun page => Event.emit app_id (build_page_url app_id page)) ++
        (if delay = 0 then [] else [Event.sleep])))

/-- The `(app_id, url)` rows of a trace, in order. -/
def eventRecord : Event → Option (String × String)
  | Event.emit a u => some (a, u)
  | Event.sleep => none

/-- The rows yielded by `generate_urls` (what `write_csv` consumes). -/
def urlRecords (fetch : String → Except String Node) (app_ids : List String)
    (delay : ℚ) : List (String × String) :=
  (generate_urls fetch app_ids delay).filterMap eventRecord

/-- Whether a trace event is a sleep suspension. -/
def isSleepEvent : Event → Bool
  | Event.sleep => true
  | Event.emit _ _ => false

/-- Number of `time.sleep` suspensions in a trace. -/
def sleepCount (events : List Event) : Nat :=
  (events.filter isSleepEvent).length

/-- `write_csv`: header row `app_id,url` followed by one row per record. -/
def write_csv_rows (rows : List (String × String)) : List (List String) :=
  ["app_id", "url"] :: rows.map (fun r => [r.1, r.2])

/-- `main`, with the CLI, logging and session layers abstracted away: the
input file is `none` when absent, otherwise its text; the result is the exit
code together with the CSV contents written (`none` when no output file is
produced). -/
def main_run (ids_file : Option String) (fetch : String → Except String Node)
    (delay : ℚ) : Nat × Option (List (List String)) :=
  match ids_file with
  | none => (1, none)
  | some text =>
      let app_ids := read_app_ids text
      if app_ids.isEmpty then (1, none)
      else (0, some (write_csv_rows (urlRecords fetch app_ids delay)))

/-!
Spec-side decompositions of `extract_max_page`, used to state that it is the
maximum over all collected signals with a floor of 1.
-/

/-- The pagination containers found on a page. -/
def paginationContainersOf (soup : Node) : List Node :=
  selectWhere soup hasPaginationClass

/-- The scanned containers: the pagination containers when any exist,
otherwise the whole page. -/
def containersOf (soup : Node) : List Node :=
  if (paginationContainersOf soup).isEmpty then [soup] else paginationContainersOf soup

/-- The integer contributed by one `data-page` attribute value: parsed only
when nonempty and entirely decimal digits. -/
def dataPageParse (element : Node) : Option Nat :=
  match attrGet element "data-page" with
  | some page_value =>
      if !page_value.toList.isEmpty && pyIsdigit page_value.toList then
        some (digitsToNat page_value.toList)
      else none
  | none => none

/-- The integer contributed by one matching anchor. -/
def linkParse (link : Node) : Option Nat :=
  searchP ((attrGet link "href").getD "").toList

/-- Attribute signals of one container. -/
def dataPageSignals (container : Node) : List Nat :=
  (selectWhere container hasDataPage).filterMap dataPageParse

/-- Link-href signals of one container. -/
def linkSignals (container : Node) : List Nat :=
  (selectWhere container isAnchorWithP).filterMap linkParse

/-- Text signal of one container (at most one value: the second integer of
the first `Page X of Y` match). -/
def textSignals (container : Node) : List Nat :=
  (searchPage (get_text container)).toList

/-- All signals of one container, in scan order. -/
def signalsOf (container : Node) : List Nat :=
  dataPageSignals container ++ linkSignals container ++ textSignals container

/-- The effective max-page used by `generate_urls` for one identifier: the
fetched value, or 1 when the fetch raised `UrlGenerationError`. -/
def effMaxPage (fetch : String → Except String Node) (app_id : String) : Nat :=
  match fetch_max_page fetch app_id with
  | Except.error _ => 1
  | Except.ok n => n

/-- The URL emitted for a given page of an identifier: the bare base URL for
page 1, `build_page_url` for later pages. -/
def urlFor (app_id : String) (page : Nat) : String :=
  if page = 1 then build_base_url app_id else build_page_url app_id page

/-- Max-page of an identifier when every fetch succeeds with page `pages id`. -/
def maxPageOf (pages : String → Node) (app_id : String) : Nat :=
  max (extract_max_page (pages app_id)) 1

/-- Line filter of `read_app_ids`, phrased as the spec does: keep a stripped
line iff it is nonempty, does not start with `#`, and is all decimal
digits. -/
def keepLine (cs : List Char) : Bool :=
  !cs.isEmpty && cs.head? != some '#' && pyIsdigit cs

/-!
Concrete documents and fetch functions used in the example conjuncts,
counterexamples and witnesses.
-/

/-- A page with no pagination container and no signal at all. -/
def noSignalDoc : Node := Node.el "[document]" [] [] [Node.text "hello world"]

/-- A page with a `data-page="3"` attribute and the text `Page 1 of 7`,
and no matching links. -/
def mixedDoc : Node :=
  Node.el "[document]" [] []
    [Node.el "div" [] [("data-page", "3")] [], Node.text "Page 1 of 7"]

/-- A page with an empty pagination container and a `data-page="9"`
attribute outside it. -/
def containerDoc : Node :=
  Node.el "[document]" [] []
    [Node.el "div" ["forum_pagination"] [] [],
     Node.el "span" [] [("data-page", "9")] []]

/-- `containerDoc` with the pagination container removed. -/
def containerFreeDoc : Node :=
  Node.el "[document]" [] [] [Node.el "span" [] [("data-page", "9")] []]

/-- A page whose text holds two `Page X of Y` occurrences, the later one
larger. -/
def twoPageTextDoc : Node :=
  Node.el "[document]" [] [] [Node.text "Page 1 of 3 and also Page 1 of 9"]

/-- A page whose text holds only the later, larger occurrence. -/
def onlyLaterTextDoc : Node :=
  Node.el "[document]" [] [] [Node.text "Page 1 of 9"]

/-- A page whose only signal is a single `data-page` attribute with the
given value. -/
def dataPageDoc (v : String) : Node :=
  Node.el "[document]" [] [] [Node.el "span" [] [("data-page", v)] []]

/-- A fetch capability that always fails with a transport error. -/
def fetchFail : String → Except String Node :=
  fun _ => Except.error "network down"

/-- A fetch capability failing for identifier `7` only. -/
def fetchBoom : String → Except String Node :=
  fun app_id => if app_id = "7" then Except.error "boom" else Except.ok noSignalDoc

/-!
Helper lemmas: a running maximum accumulated over per-element optional
values is a `foldl max` over the collected values.
-/

lemma foldl_max_filterMap {α : Type} (g : α → Option Nat) (l : List α) (init : Nat) :
    l.foldl (fun m e => match g e with | some v => max m v | none => m) init
      = (l.filterMap g).foldl max init := by
  induction l generalizing init with
  | nil => rfl
  | cons a l ih =>
      cases h : g a <;> simp [List.foldl_cons, List.filterMap_cons, h, ih]

lemma init_le_foldl_max (l : List Nat) (init : Nat) : init ≤ l.foldl max init := by
  induction l generalizing init with
  | nil => exact le_refl _
  | cons a l ih => exact le_trans (le_max_left init a) (ih (max init a))

lemma dp_phase (c : Node) (init : Nat) :
    (selectWhere c hasDataPage).foldl
      (fun m element =>
        match attrGet element "data-page" with
        | some page_value =>
            if !page_value.toList.isEmpty && pyIsdigit page_value.toList then
              max m (digitsToNat page_value.toList)
            else m
        | none => m) init
      = (dataPageSignals c).foldl max init := by
  have hb : (fun (m : Nat) (element : Node) =>
      match attrGet element "data-page" with
      | some page_value =>
          if !page_value.toList.isEmpty && pyIsdigit page_value.toList then
            max m (digitsToNat page_value.toList)
          else m
      | none => m)
      = fun (m : Nat) (e : Node) =>
          match dataPageParse e with | some v => max m v | none => m := by
    funext m e
    unfold dataPageParse
    cases attrGet e "data-page" with
    | none => rfl
    | some v =>
        dsimp only
        cases h : (!v.toList.isEmpty && pyIsdigit v.toList) <;> simp
  rw [hb]
  exact foldl_max_filterMap dataPageParse _ init

lemma link_phase (c : Node) (init : Nat) :
    (selectWhere c isAnchorWithP).foldl
      (fun m link =>
        match searchP ((attrGet link "href").getD "").toList with
        | some k => max m k
        | none => m) init
      = (linkSignals c).foldl max init :=
  foldl_max_filterMap linkParse _ init

lemma text_phase (c : Node) (m : Nat) :
    (match searchPage (get_text c) with
     | some k => max m k
     | none => m)
      = (textSignals c).foldl max m := by
  unfold textSignals
  cases searchPage (get_text c) <;> simp

lemma container_step (init : Nat) (c : Node) :
    (let m1 := (selectWhere c hasDataPage).foldl
        (fun m element =>
          match attrGet element "data-page" with
          | some page_value =>
              if !page_value.toList.isEmpty && pyIsdigit page_value.toList then
                max m (digitsToNat page_value.toList)
              else m
          | none => m) init
     let m2 := (selectWhere c isAnchorWithP).foldl
        (fun m link =>
          match searchP ((attrGet link "href").getD "").toList with
          | some k => max m k
          | none => m) m1
     match searchPage (get_text c) with
     | some k => max m2 k
     | none => m2)
      = (signalsOf c).foldl max init := by
  simp only [dp_phase, link_phase, text_phase, signalsOf, List.foldl_append]

/-- Master shape lemma: `extract_max_page` is the fold of `max` over every
signal of every scanned container, starting at 1. -/
lemma extract_max_page_eq (soup : Node) :
    extract_max_page soup = ((containersOf soup).flatMap signalsOf).foldl max 1 := by
  have hstep : ∀ (cs : List Node) (init : Nat),
      cs.foldl
        (fun max_page container =>
          let m1 := (selectWhere container hasDataPage).foldl
            (fun m element =>
              match attrGet element "data-page" with
              | some page_value =>
                  if !page_value.toList.isEmpty && pyIsdigit page_value.toList then
                    max m (digitsToNat page_value.toList)
                  else m
              | none => m) max_page
          let m2 := (selectWhere container isAnchorWithP).foldl
            (fun m link =>
              match searchP ((attrGet link "href").getD "").toList with
              | some k => max m k
              | none => m) m1
          match searchPage (get_text container) with
          | some k => max m2 k
          | none => m2) init
        = (cs.flatMap signalsOf).foldl max init := by
    intro cs
    induction cs with
    | nil => intro init; rfl
    | cons c cs ih =>
        intro init
        rw [List.foldl_cons, List.flatMap_cons, List.foldl_append, ih]
        congr 1
        exact container_step init c
  exact hstep (containersOf soup) 1

lemma filterMap_eventRecord_map_emit (a : String) (g : Nat → String) (l : List Nat) :
    List.filterMap (eventRecord ∘ fun p => Event.emit a (g p)) l
      = l.map (fun p => (a, g p)) := by
  induction l with
  | nil => rfl
  | cons x l ih => simp [List.filterMap_cons, eventRecord, Function.comp, ih]

lemma group_records (fetch : String → Except String Node) (d : ℚ) (a : String) :
    (Event.emit a (build_base_url a) ::
        ((List.range' 2 (effMaxPage fetch a - 1)).map
            (fun page => Event.emit a (build_page_url a page)) ++
          (if d = 0 then [] else [Event.sleep]))).filterMap eventRecord
      = (a, build_base_url a) ::
          (List.range' 2 (effMaxPage fetch a - 1)).map
            (fun page => (a, build_page_url a page)) := by
  by_cases hd : d = 0 <;>
    simp [hd, List.filterMap_cons, List.filterMap_append, eventRecord,
      filterMap_eventRecord_map_emit]

/-- Master record lemma: the rows of `generate_urls` are, per identifier in
input order, the base URL followed by `build_page_url` for pages 2 up to the
effective max-page. -/
lemma urlRecords_eq (fetch : String → Except String Node) (ids : List String) (d : ℚ) :
    urlRecords fetch ids d
      = ids.flatMap (fun app_id =>
          (app_id, build_base_url app_id) ::
            (List.range' 2 (effMaxPage fetch app_id - 1)).map
              (fun page => (app_id, build_page_url app_id page))) := by
  unfold urlRecords generate_urls
  induction ids with
  | nil => rfl
  | cons a ids ih =>
      rw [List.flatMap_cons, List.flatMap_cons, List.filterMap_append, ih]
      congr 1
      exact group_records fetch d a

lemma range_group (a : String) (N : Nat) (hN : 1 ≤ N) :
    (List.range' 1 N).map (fun p => (a, urlFor a p))
      = (a, build_base_url a) ::
          (List.range' 2 (N - 1)).map (fun p => (a, build_page_url a p)) := by
  obtain ⟨k, rfl⟩ : ∃ k, N = k + 1 := ⟨N - 1, by omega⟩
  rw [List.range'_succ, List.map_cons]
  have h1 : urlFor a 1 = build_base_url a := rfl
  rw [h1]
  congr 1
  · simp only [Nat.add_sub_cancel]
    apply List.map_congr_left
    intro p hp
    rw [List.mem_range'] at hp
    obtain ⟨i, _, rfl⟩ := hp
    unfold urlFor
    rw [if_neg (by omega)]

lemma filter_sleep_map_emit (a : String) (g : Nat → String) (l : List Nat) :
    (l.map (fun p => Event.emit a (g p))).filter isSleepEvent = [] := by
  induction l with
  | nil => rfl
  | cons x l ih => simp [List.filter_cons, isSleepEvent, ih]

/-!
Claim theorems.
-/

/-- C1: `extract_max_page` returns the maximum integer observed across the
three signal types over all scanned containers with a floor of 1; it is 1
when no signal is present, and 7 for a page with `data-page="3"`, the text
`Page 1 of 7` and no matching links. -/
theorem extract_max_page_contract :
    (∀ soup : Node,
        extract_max_page soup = ((containersOf soup).flatMap signalsOf).foldl max 1)
      ∧ (∀ soup : Node, 1 ≤ extract_max_page soup)
      ∧ extract_max_page noSignalDoc = 1
      ∧ extract_max_page mixedDoc = 7 := by
  refine ⟨extract_max_page_eq, ?_, rfl, rfl⟩
  intro soup
  rw [extract_max_page_eq]
  exact init_le_foldl_max _ 1

/-- C2: when every fetch succeeds, each identifier contributes, in input
order, exactly its max-page count of rows with page numbers 1 up to the
max-page (page 1 as the base URL, later pages via `build_page_url`), and the
total row count is the sum of the max-page counts. -/
theorem generate_urls_success_contract (pages : String → Node) (ids : List String) (d : ℚ) :
    urlRecords (fun i => Except.ok (pages i)) ids d
        = ids.flatMap (fun app_id =>
            (List.range' 1 (maxPageOf pages app_id)).map
              (fun p => (app_id, urlFor app_id p)))
      ∧ (urlRecords (fun i => Except.ok (pages i)) ids d).length
        = (ids.map (maxPageOf pages)).sum := by
  have hmain : urlRecords (fun i => Except.ok (pages i)) ids d
      = ids.flatMap (fun app_id =>
          (List.range' 1 (maxPageOf pages app_id)).map
            (fun p => (app_id, urlFor app_id p))) := by
    rw [urlRecords_eq]
    congr 1
    funext a
    exact (range_group a (maxPageOf pages a) (le_max_right _ 1)).symm
  refine ⟨hmain, ?_⟩
  rw [hmain, List.length_flatMap]
  congr 1
  apply List.map_congr_left
  intro a _
  simp [List.length_range']

/-- C3 (amended): `build_page_url` always appends the page-selector
fragment, so for page 1 it yields the base URL followed by `&p=1` rather
than the base URL itself; the enumerator avoids this by emitting the bare
base URL for page 1. -/
theorem build_page_url_one (app_id : String) :
    build_page_url app_id 1 = build_base_url app_id ++ "&p=1" := rfl

/-- C3 counterexample: at identifier `10`, `build_page_url` for page 1 is
not the base URL. -/
theorem build_page_url_one_ne_base :
    build_page_url "10" 1 ≠ build_base_url "10" := by decide

/-- C4 (amended): when the delay is nonzero, a delay suspension occurs after
every identifier, the last included: exactly `n` suspensions for `n`
identifiers. -/
theorem sleep_after_every_identifier (fetch : String → Except String Node)
    (ids : List String) (d : ℚ) (h : d ≠ 0) :
    sleepCount (generate_urls fetch ids d) = ids.length := by
  unfold sleepCount generate_urls
  induction ids with
  | nil => rfl
  | cons a ids ih =>
      rw [List.flatMap_cons, List.filter_append, List.length_append, ih]
      simp only [List.filter_cons, List.filter_append, isSleepEvent,
        filter_sleep_map_emit, if_neg h]
      simp
      omega

/-- C4 witness: two identifiers with delay 1 suspend twice. -/
theorem sleep_after_every_identifier_witness :
    sleepCount (generate_urls fetchFail ["1", "2"] 1) = 2 :=
  sleep_after_every_identifier fetchFail ["1", "2"] 1 (by decide)

/-- C4 counterexample: with one identifier and delay 1 the code suspends
once, not `n - 1 = 0` times — the sleep also runs after the last
identifier. -/
theorem sleep_count_counterexample :
    ¬ sleepCount (generate_urls fetchFail ["1"] 1)
        = (["1"] : List String).length - 1 := by decide

/-- C5: a fetch failure for one identifier yields exactly one row for it
(its base URL) and the remaining identifiers are processed unchanged. -/
theorem fetch_failure_single_row (fetch : String → Except String Node)
    (pre suf : List String) (a e : String) (d : ℚ)
    (h : fetch a = Except.error e) :
    urlRecords fetch (pre ++ a :: suf) d
      = urlRecords fetch pre d ++
          (a, build_base_url a) :: urlRecords fetch suf d := by
  have hN : effMaxPage fetch a = 1 := by
    unfold effMaxPage fetch_max_page
    rw [h]
  rw [urlRecords_eq, urlRecords_eq, urlRecords_eq, List.flatMap_append,
    List.flatMap_cons, hN]
  simp

/-- C5 witness: identifier `7` failing between two succeeding identifiers
yields exactly its base-URL row in place. -/
theorem fetch_failure_single_row_witness :
    urlRecords fetchBoom (["1"] ++ "7" :: ["2"]) 0
      = urlRecords fetchBoom ["1"] 0 ++
          ("7", build_base_url "7") :: urlRecords fetchBoom ["2"] 0 :=
  fetch_failure_single_row fetchBoom ["1"] ["2"] "7" "boom" 0 rfl

/-- C6: when pagination containers are present, all signal scanning is
restricted to their contents — a `data-page="9"` outside every container is
ignored — and when none are present the whole page is scanned. -/
theorem pagination_scope_contract :
    (∀ soup : Node, paginationContainersOf soup ≠ [] →
        extract_max_page soup
          = ((paginationContainersOf soup).flatMap signalsOf).foldl max 1)
      ∧ (∀ soup : Node, paginationContainersOf soup = [] →
        extract_max_page soup = (signalsOf soup).foldl max 1)
      ∧ extract_max_page containerDoc = 1
      ∧ extract_max_page containerFreeDoc = 9 := by
  refine ⟨?_, ?_, rfl, rfl⟩
  · intro soup h
    rw [extract_max_page_eq]
    unfold containersOf
    rw [if_neg (by simp [List.isEmpty_iff, h])]
  · intro soup h
    rw [extract_max_page_eq]
    unfold containersOf
    rw [if_pos (by simp [List.isEmpty_iff, h])]
    simp

/-- C6 witness: `containerDoc` has a pagination container, and its result is
the fold over the signals found inside containers only. -/
theorem pagination_scope_witness :
    extract_max_page containerDoc
      = ((paginationContainersOf containerDoc).flatMap signalsOf).foldl max 1 :=
  pagination_scope_contract.1 containerDoc (by decide)

/-- C9: the text signal contributes at most the second integer of the first
`Page X of Y` occurrence: with text `Page 1 of 3 and also Page 1 of 9` the
result is 3, while the later occurrence alone would give 9. -/
theorem text_signal_first_occurrence :
    extract_max_page twoPageTextDoc = 3
      ∧ extract_max_page onlyLaterTextDoc = 9
      ∧ ∀ container : Node, (textSignals container).length ≤ 1 := by
  refine ⟨rfl, rfl, ?_⟩
  intro c
  unfold textSignals
  cases searchPage (get_text c) <;> simp

/-- C10: a `data-page` value contributes only when nonempty and entirely
decimal digits; signed, padded or otherwise non-digit values are ignored,
and `"0"` parses but the floor keeps the result at 1. -/
theorem data_page_digit_contract :
    (∀ v : String,
        extract_max_page (dataPageDoc v)
          = if !v.toList.isEmpty && pyIsdigit v.toList then
              max 1 (digitsToNat v.toList)
            else 1)
      ∧ extract_max_page (dataPageDoc "+3") = 1
      ∧ extract_max_page (dataPageDoc " 3") = 1
      ∧ extract_max_page (dataPageDoc "3x") = 1
      ∧ extract_max_page (dataPageDoc "0") = 1
      ∧ extract_max_page (dataPageDoc "3") = 3 :=
  ⟨fun _ => rfl, rfl, rfl, rfl, rfl, rfl⟩

lemma filterMap_keep (p : List Char → Bool) (ls : List (List Char)) :
    ls.filterMap (fun l => if p (stripCh l) then some (String.mk (stripCh l)) else none)
      = ((ls.map stripCh).filter p).map String.mk := by
  induction ls with
  | nil => rfl
  | cons l ls ih =>
      by_cases h : p (stripCh l) = true <;>
        simp [List.filterMap_cons, List.map_cons, List.filter_cons, h, ih]

lemma line_body_eq (l : List Char) :
    (let app_id := stripCh l
     if app_id.isEmpty then none
     else if app_id.head? = some '#' then none
     else if !pyIsdigit app_id then none
     else some (String.mk app_id))
      = if keepLine (stripCh l) then some (String.mk (stripCh l)) else none := by
  unfold keepLine
  by_cases h1 : (stripCh l).isEmpty = true
  · simp [h1]
  · by_cases h2 : (stripCh l).head? = some '#'
    · simp [h1, h2]
    · by_cases h3 : pyIsdigit (stripCh l) = true
      · simp [h1, h2, h3]
      · simp [h1, h2, h3]

lemma read_app_ids_eq (text : String) :
    read_app_ids text
      = (((splitlines text.toList []).map stripCh).filter keepLine).map String.mk := by
  unfold read_app_ids
  rw [show (fun raw_line =>
      let app_id := stripCh raw_line
      if app_id.isEmpty then none
      else if app_id.head? = some '#' then none
      else if !pyIsdigit app_id then none
      else some (String.mk app_id))
    = (fun l => if keepLine (stripCh l) then some (String.mk (stripCh l)) else none)
    from funext line_body_eq]
  exact filterMap_keep keepLine _

/-- C7: `read_app_ids` strips each line, drops empty lines, `#`-comment
lines and lines that are not entirely decimal digits, and keeps the rest in
input order with duplicates; the documented example input yields exactly
`["123", "456", "123"]`.  The function is total, so no input raises an
error. -/
theorem read_app_ids_contract :
    read_app_ids "123\n\n# comment\nabc\n456\n123\n" = ["123", "456", "123"]
      ∧ ∀ text : String,
          read_app_ids text
            = (((splitlines text.toList []).map stripCh).filter keepLine).map String.mk :=
  ⟨by decide, read_app_ids_eq⟩

/-- C8: the run exits with code 1 and produces no output file exactly when
the input file is absent or holds no valid identifier; otherwise — fetch
failures included — it writes the CSV rows and exits with code 0. -/
theorem main_exit_contract (fetch : String → Except String Node) (d : ℚ)
    (file : Option String) :
    ((main_run file fetch d).1 = 1 ↔ (main_run file fetch d).2 = none)
      ∧ main_run none fetch d = (1, none)
      ∧ (∀ t, read_app_ids t = [] → main_run (some t) fetch d = (1, none))
      ∧ (∀ t, read_app_ids t ≠ [] →
          main_run (some t) fetch d
            = (0, some (write_csv_rows (urlRecords fetch (read_app_ids t) d)))) := by
  refine ⟨?_, rfl, ?_, ?_⟩
  · cases file with
    | none => simp [main_run]
    | some t =>
        by_cases h : (read_app_ids t).isEmpty = true <;> simp [main_run, h]
  · intro t ht
    simp [main_run, List.isEmpty_iff, ht]
  · intro t ht
    simp [main_run, List.isEmpty_iff, ht]

/-- C8 witness: a one-identifier input file on which every fetch fails still
writes the CSV and exits 0, while a `none` input file exits 1 with no
output. -/
theorem main_exit_contract_witness :
    main_run (some "123") fetchFail 0
        = (0, some (write_csv_rows (urlRecords fetchFail (read_app_ids "123") 0)))
      ∧ main_run none fetchFail 0 = (1, none) :=
  ⟨(main_exit_contract fetchFail 0 (some "123")).2.2.2 "123" (by decide),
    (main_exit_contract fetchFail 0 none).2.1⟩

end SteamUrls
